import Mathlib

/-!
Shallow embedding of the Premium Shoes backend (src/main.py and src/schemas.py).
Python floats are modelled as rationals, Python ints as Lean integers.
The document store (database.py, which is not among the sources; only the spec
describes its adapter contract) is modelled from the spec: insert appends a
document to a collection, find filters a collection by the query and caps the
result at the limit, count returns the number of documents in the collection.
-/

namespace PremiumShoes

/-- Round-half-to-even in the Python manner of a rational to an integer, the rounding mode
of the builtin round used at src/main.py lines 128-129 and 170. -/
def roundHalfEven (q : ℚ) : ℤ :=
  let f := ⌊q⌋
  if q - f < 1/2 then f
  else if 1/2 < q - f then f + 1
  else if f % 2 = 0 then f else f + 1

/-- Python round(x, 2) on exact rationals. -/
def pyRound2 (q : ℚ) : ℚ := (roundHalfEven (q * 100) : ℚ) / 100

/-- Schema Orderitem (src/schemas.py lines 34-42): one line item of an order. -/
structure Orderitem where
  product_id : String
  title : String
  brand : String
  price : ℚ
  size : ℤ
  color : String
  quantity : ℤ
  thumbnail : Option String
deriving DecidableEq

/-- Schema Order (src/schemas.py lines 44-54): a checkout order as it exists
after schema validation. -/
structure Order where
  items : List Orderitem
  subtotal : ℚ
  shipping : ℚ
  total : ℚ
  customer_name : Option String
  customer_email : Option String
  upi_provider : Option String
  upi_id : Option String
  status : String
deriving DecidableEq

/-- Response body of POST /api/orders (src/main.py line 134). -/
structure OrderResponse where
  id : String
  status : String
  upi_provider : String
  upi_link : String
deriving DecidableEq

/-- sum(i.price * i.quantity for i in order.items) at src/main.py line 126. -/
def itemsSubtotal (items : List Orderitem) : ℚ :=
  (items.map (fun i => i.price * (i.quantity : ℚ))).sum

/-- Python float-to-string rendering used by the f-string at src/main.py
line 133, for the non-negative two-decimal monetary values produced by
round(_, 2): the shortest decimal form, with at least one digit after the
point. -/
def pyFloatRepr (q : ℚ) : String :=
  let cents : ℤ := roundHalfEven (q * 100)
  let whole := cents / 100
  let rem := cents % 100
  if rem = 0 then toString whole ++ ".0"
  else if rem % 10 = 0 then toString whole ++ "." ++ toString (rem / 10)
  else if rem < 10 then toString whole ++ ".0" ++ toString rem
  else toString whole ++ "." ++ toString rem

/-- Handler create_order (src/main.py lines 123-134). The store-assigned id is
passed in as `order_id`; the first component of the result is the document
handed to create_document (the order after the recomputation by the handler at
lines 126-129), the second is the HTTP response body of line 134. -/
def create_order (order : Order) (order_id : String) : Order × OrderResponse :=
  let subtotal := itemsSubtotal order.items
  let total := subtotal + order.shipping
  let stored := { order with subtotal := pyRound2 subtotal, total := pyRound2 total }
  let upi_provider := stored.upi_provider.getD "PhonePe"
  let upi_link := "upi://pay?pn=PremiumShoes&am=" ++ pyFloatRepr stored.total ++
    "&cu=INR&pa=premium@upi&tn=Order%20" ++ order_id
  (stored, ⟨order_id, "pending", upi_provider, upi_link⟩)

/-- Schema Shoeproduct (src/schemas.py lines 13-32): a catalogue document. -/
structure Shoeproduct where
  title : String
  brand : String
  price : ℚ
  colors : List String
  sizes : List ℤ
  description : Option String
  images : List String
  is_new : Bool
  is_best_seller : Bool
  rating : ℚ
  reviews_count : ℤ
  gender : String
  material : Option String
  popularity : ℤ
deriving DecidableEq

/-- The Mongo filter dict q built by list_products (src/main.py lines 78-95):
one optional predicate per key that the handler may set. -/
structure ProductQuery where
  brand : Option String
  sizesIn : Option ℤ
  colorsIn : Option String
  priceGte : Option ℚ
  priceLte : Option ℚ
  is_new : Option Bool
  is_best_seller : Option Bool
deriving DecidableEq

/-- Python truthiness of an Optional[str]: None and the empty string are
falsy, used by the `if brand:` and `if color:` tests at lines 79 and 83. -/
def optStrTruthy : Option String → Bool
  | none => false
  | some s => s != ""

/-- Query construction of list_products (src/main.py lines 78-95): `if brand:`
and `if color:` test truthiness, the other parameters are tested against
None. The price bounds follow lines 85-91 with the two optional keys of the
nested dict flattened into priceGte and priceLte. -/
def buildQuery (brand : Option String) (size : Option ℤ) (min_price max_price : Option ℚ)
    (color : Option String) (is_new best : Option Bool) : ProductQuery where
  brand := if optStrTruthy brand then brand else none
  sizesIn := size
  colorsIn := if optStrTruthy color then color else none
  priceGte := min_price
  priceLte := max_price
  is_new := is_new
  is_best_seller := best

/-- Mongo-style document matching of the filter built by buildQuery. Modelled
from the Document Store Adapter and Query Builder contract (database.py
is not among the sources): equality on brand and the flags, membership on the
sizes and colors arrays, bounds on price, conjunction of all present keys. -/
def matchesQuery (q : ProductQuery) (d : Shoeproduct) : Bool :=
  (match q.brand with | none => true | some b => d.brand == b) &&
  (match q.sizesIn with | none => true | some s => d.sizes.contains s) &&
  (match q.colorsIn with | none => true | some c => d.colors.contains c) &&
  (match q.priceGte with | none => true | some m => decide (m ≤ d.price)) &&
  (match q.priceLte with | none => true | some m => decide (d.price ≤ m)) &&
  (match q.is_new with | none => true | some v => d.is_new == v) &&
  (match q.is_best_seller with | none => true | some v => d.is_best_seller == v)

/-- Store find for the shoeproduct collection. Modelled from the spec:
"find(collection_name, filter, limit) returns up to limit documents matching
filter" (database.py is not among the sources). -/
def get_documents (docs : List Shoeproduct) (q : ProductQuery) (limit : ℕ) : List Shoeproduct :=
  (docs.filter (fun d => matchesQuery q d)).take limit

/-- Handler list_products (src/main.py lines 67-98): build the filter, query
the store with the limit (default 60 supplied by the HTTP layer). -/
def list_products (docs : List Shoeproduct) (brand : Option String) (size : Option ℤ)
    (min_price max_price : Option ℚ) (color : Option String) (is_new best : Option Bool)
    (limit : ℕ) : List Shoeproduct :=
  get_documents docs (buildQuery brand size min_price max_price color is_new best) limit

/-- Hexadecimal digit test for ObjectId strings. -/
def isHexDigit (c : Char) : Bool :=
  c.isDigit || ('a' ≤ c && c ≤ 'f') || ('A' ≤ c && c ≤ 'F')

/-- Modelled from the spec: the external bson ObjectId(...) constructor used at
src/main.py line 103 accepts exactly the 24-character hexadecimal strings and
raises on every other string; the handler catches that failure. -/
def objectIdValid (s : String) : Bool :=
  s.length == 24 && s.toList.all isHexDigit

/-- Result of GET /api/products/{id}: a document or an HTTPException. -/
inductive ProductLookup where
  | found (doc : Shoeproduct)
  | notFound (code : ℕ) (detail : String)
deriving DecidableEq

/-- Handler get_product (src/main.py lines 100-108): the id is parsed to an
ObjectId inside try/except, any parse failure yields doc = None (lines
102-105), and a missing doc raises HTTPException 404 (lines 106-107). The
find_one operation of the store is modelled from the spec as lookup in an association list
keyed by the document id. -/
def get_product (store : List (String × Shoeproduct)) (product_id : String) : ProductLookup :=
  let doc : Option Shoeproduct :=
    if objectIdValid product_id then
      (store.find? (fun kv => kv.fst == product_id)).map (fun kv => kv.snd)
    else none
  match doc with
  | none => .notFound 404 "Product not found"
  | some d => .found d

/-- Schema Contactmessage (src/schemas.py lines 56-60). -/
structure Contactmessage where
  name : String
  email : String
  message : String
deriving DecidableEq

/-- Raw JSON body of POST /api/contact before validation: each field may be
absent. -/
structure ContactPayload where
  name : Option String
  email : Option String
  message : Option String
deriving DecidableEq

/-- Modelled from the spec: the email-format predicate of the external
validation layer (pydantic EmailStr, src/schemas.py line 59). The spec and the
claims constrain it only this far: a value without an "@" is rejected. -/
def emailValid (e : String) : Bool := e.toList.contains '@'

/-- Outcome of POST /api/contact. -/
inductive ContactResult where
  | ok (id : String) (status : String)
  | validationError (code : ℕ)
deriving DecidableEq

/-- Handler create_contact (src/main.py lines 117-120) together with the
validation boundary modelled from the spec (section 4.1: validation runs
before the handler and rejects with a 422 before any store access): all three
fields of Contactmessage are required and email must pass emailValid; on
success the message is inserted and {id, status: "received"} returned. -/
def contact_endpoint (p : ContactPayload) (st : List Contactmessage) (newId : String) :
    List Contactmessage × ContactResult :=
  match p.name, p.email, p.message with
  | some n, some e, some m =>
    if emailValid e then (st ++ [⟨n, e, m⟩], .ok newId "received")
    else (st, .validationError 422)
  | _, _, _ => (st, .validationError 422)

/-- Raw JSON body of POST /api/orders before validation: each field may be
absent; items are taken as already-parsed Orderitem records. -/
structure OrderPayload where
  items : Option (List Orderitem)
  subtotal : Option ℚ
  shipping : Option ℚ
  total : Option ℚ
  customer_name : Option String
  customer_email : Option String
  upi_provider : Option String
  upi_id : Option String
  status : Option String
deriving DecidableEq

/-- Modelled from the spec (section 4.1) and the Order schema declaration
(src/schemas.py lines 44-54): items, subtotal and total are required (no
default), subtotal ≥ 0, total ≥ 0, shipping ≥ 0 with default 0, quantity ≥ 1
per item, optional email must pass emailValid, upi_provider and status must be
members of their Literal enums, status defaults to "pending". On any failure
the request is rejected before the handler runs. -/
def validate_order (p : OrderPayload) : Option Order :=
  match p.items, p.subtotal, p.total with
  | some its, some sub, some tot =>
    if its.all (fun i => decide (1 ≤ i.quantity))
        && decide (0 ≤ sub) && decide (0 ≤ tot) && decide (0 ≤ p.shipping.getD 0)
        && (match p.customer_email with | none => true | some e => emailValid e)
        && (match p.upi_provider with
            | none => true
            | some u => ["PhonePe", "Paytm", "Google Pay"].contains u)
        && ["pending", "paid", "failed"].contains (p.status.getD "pending")
    then some { items := its, subtotal := sub, shipping := p.shipping.getD 0, total := tot,
                customer_name := p.customer_name, customer_email := p.customer_email,
                upi_provider := p.upi_provider, upi_id := p.upi_id,
                status := p.status.getD "pending" }
    else none
  | _, _, _ => none

/-- Outcome of POST /api/orders including the validation boundary. -/
inductive OrderEndpointResult where
  | ok (resp : OrderResponse)
  | validationError (code : ℕ)
deriving DecidableEq

/-- POST /api/orders end to end: schema validation, then the create_order
handler. The first component is the document persisted by create_document,
none when validation rejected the request before the handler ran. -/
def orders_endpoint (p : OrderPayload) (oid : String) : Option Order × OrderEndpointResult :=
  match validate_order p with
  | none => (none, .validationError 422)
  | some o => (some (create_order o oid).1, .ok (create_order o oid).2)

/-- Schema Sitereview (src/schemas.py lines 63-67). -/
structure Sitereview where
  name : String
  rating : ℚ
  comment : String
deriving DecidableEq

/-- The two seedable collections of the store. -/
structure DBState where
  shoeproducts : List Shoeproduct
  sitereviews : List Sitereview
deriving DecidableEq

/-- Response model SeedResponse (src/main.py lines 137-139). -/
structure SeedResponse where
  products : ℕ
  reviews : ℕ
deriving DecidableEq

/-- The brands list of seed_data (src/main.py line 143). -/
def brands : List String := ["Nike", "Jordan", "Adidas", "Puma", "Gucci"]

/-- range(1, 7) of the seed loop (src/main.py line 166). -/
def range1to6 : List ℤ := [1, 2, 3, 4, 5, 6]

/-- The base_imgs dict of seed_data (src/main.py lines 148-164). -/
def base_imgs (b : String) : List String :=
  if b = "Nike" then
    ["https://images.unsplash.com/photo-1542291026-7eec264c27ff?q=80&w=1200&auto=format&fit=crop"]
  else if b = "Jordan" then
    ["https://images.unsplash.com/photo-1519741497674-611481863552?q=80&w=1200&auto=format&fit=crop"]
  else if b = "Adidas" then
    ["https://images.unsplash.com/photo-1523381210434-271e8be1f52b?q=80&w=1200&auto=format&fit=crop"]
  else if b = "Puma" then
    ["https://images.unsplash.com/photo-1542291026-787b19a2f5b6?q=80&w=1200&auto=format&fit=crop"]
  else if b = "Gucci" then
    ["https://images.unsplash.com/photo-1584735175315-9d5df6c7e8a0?q=80&w=1200&auto=format&fit=crop"]
  else []

/-- One product built by the seed loop body (src/main.py lines 167-179). -/
def mkSeedProduct (b : String) (idx : ℤ) : Shoeproduct where
  title := b ++ " Elite " ++ toString idx
  brand := b
  price := pyRound2 (99 + (idx : ℚ) * 20 + (if b ≠ "Gucci" then 0 else 300))
  colors := ["Black", "White", "Red", "Blue"].take 3
  sizes := [38, 39, 40, 41, 42, 43, 44]
  description := some ("Premium " ++ b ++ " sneaker crafted for comfort and performance.")
  images := base_imgs b
  is_new := decide (5 ≤ idx)
  is_best_seller := decide (idx % 2 = 0)
  rating := 4.5
  reviews_count := 120 + idx
  gender := "Unisex"
  material := none
  popularity := 0

/-- The full product batch of the seed loop (src/main.py lines 165-181). -/
def sample_products : List Shoeproduct :=
  brands.flatMap (fun b => range1to6.map (fun idx => mkSeedProduct b idx))

/-- The testimonial batch of seed_data (src/main.py lines 186-190). -/
def seed_reviews : List Sitereview :=
  [⟨"Aarav", 5, "Top-notch quality and super fast delivery!"⟩,
   ⟨"Isha", 4.5, "Loved the comfort. The packaging felt premium."⟩,
   ⟨"Kabir", 4.8, "Great prices for authentic sneakers."⟩]

/-- Handler seed_data (src/main.py lines 141-194), with the store operations
count_documents and create_document modelled from the spec (count is the
number of documents of the collection, insert appends). Each collection is
seeded exactly when its current count is zero; the returned counts are the
numbers of loop iterations that inserted, i.e. the batch lengths. -/
def seed_data (st : DBState) : DBState × SeedResponse :=
  let count_products := st.shoeproducts.length
  let added_p := if count_products = 0 then sample_products.length else 0
  let st1 := if count_products = 0 then
    { st with shoeproducts := st.shoeproducts ++ sample_products } else st
  let count_reviews := st1.sitereviews.length
  let added_r := if count_reviews = 0 then seed_reviews.length else 0
  let st2 := if count_reviews = 0 then
    { st1 with sitereviews := st1.sitereviews ++ seed_reviews } else st1
  (st2, ⟨added_p, added_r⟩)

end PremiumShoes

namespace PremiumShoes

/-- The order used to refute C1 as stated: one item of price 1, quantity 1,
and a shipping fee of 0.005 (a legal float ≥ 0 under the schema). -/
def c1_order : Order :=
  { items := [⟨"p1", "Shoe", "Nike", 1, 42, "Black", 1, none⟩],
    subtotal := 0, shipping := 1/200, total := 0,
    customer_name := none, customer_email := none,
    upi_provider := none, upi_id := none, status := "pending" }

/-- C1 (counterexample): for the order with items = [price 1, quantity 1] and
shipping = 0.005, the stored total is round(1.005, 2) = 1, which differs from
round(subtotal, 2) + shipping = 1.005, so the claimed equation
total == round(subtotal, 2) + shipping fails on the code. -/
theorem c1_total_formula_counterexample :
    (create_order c1_order "OID1").1.total ≠
      pyRound2 ((create_order c1_order "OID1").1.subtotal) +
        (create_order c1_order "OID1").1.shipping := by
  norm_num [create_order, c1_order, itemsSubtotal, pyRound2, roundHalfEven]

/-- C1 (amended): for every Order accepted by POST /api/orders, the handler
overwrites the client-supplied subtotal and total before persisting, storing
subtotal = round(sum(item.price * item.quantity), 2) and
total = round(sum(item.price * item.quantity) + shipping, 2); the stored
values do not depend on the subtotal and total the client sent. -/
theorem c1_totals_recomputed (order : Order) (order_id : String) :
    (create_order order order_id).1.subtotal = pyRound2 (itemsSubtotal order.items) ∧
    (create_order order order_id).1.total =
      pyRound2 (itemsSubtotal order.items + order.shipping) ∧
    ∀ s t : ℚ,
      (create_order { order with subtotal := s, total := t } order_id).1.subtotal =
        (create_order order order_id).1.subtotal ∧
      (create_order { order with subtotal := s, total := t } order_id).1.total =
        (create_order order order_id).1.total :=
  ⟨rfl, rfl, fun _ _ => ⟨rfl, rfl⟩⟩

/-- C9: the order-creation handler overwrites only subtotal and total; items,
shipping, customer fields, UPI fields and status — including a client-supplied
"paid" or "failed" — are persisted unchanged, while the status field of the HTTP response is the literal "pending" regardless of the stored status. -/
theorem c9_order_frame (order : Order) (order_id : String) :
    (create_order order order_id).1.items = order.items ∧
    (create_order order order_id).1.shipping = order.shipping ∧
    (create_order order order_id).1.customer_name = order.customer_name ∧
    (create_order order order_id).1.customer_email = order.customer_email ∧
    (create_order order order_id).1.upi_provider = order.upi_provider ∧
    (create_order order order_id).1.upi_id = order.upi_id ∧
    (create_order order order_id).1.status = order.status ∧
    (create_order order order_id).2.status = "pending" :=
  ⟨rfl, rfl, rfl, rfl, rfl, rfl, rfl, rfl⟩

/-- The order of the worked example of C6: one item of price 50 and quantity
2, shipping 5, no upi_provider supplied. -/
def c6_order : Order :=
  { items := [⟨"p1", "Shoe", "Nike", 50, 42, "Black", 2, none⟩],
    subtotal := 0, shipping := 5, total := 0,
    customer_name := none, customer_email := none,
    upi_provider := none, upi_id := none, status := "pending" }

/-- C6: POST /api/orders with items = [{price: 50, quantity: 2}] and
shipping = 5 stores subtotal 100 and total 105, answers with status
"pending", defaults upi_provider to "PhonePe", and the upi_link contains
the substring "am=105.0". -/
theorem c6_order_example :
    (create_order c6_order "ORDER1").1.subtotal = 100 ∧
    (create_order c6_order "ORDER1").1.total = 105 ∧
    (create_order c6_order "ORDER1").2.status = "pending" ∧
    (create_order c6_order "ORDER1").2.upi_provider = "PhonePe" ∧
    ∃ pre post, (create_order c6_order "ORDER1").2.upi_link = pre ++ "am=105.0" ++ post := by
  have hfr : pyFloatRepr (105 : ℚ) = "105.0" := by
    have hc : roundHalfEven ((105 : ℚ) * 100) = 10500 := by norm_num [roundHalfEven]
    simp only [pyFloatRepr, hc]
    decide
  have hval : pyRound2 (itemsSubtotal c6_order.items + c6_order.shipping) = 105 := by
    norm_num [itemsSubtotal, c6_order, pyRound2, roundHalfEven]
  have hlink : (create_order c6_order "ORDER1").2.upi_link =
      "upi://pay?pn=PremiumShoes&am=105.0&cu=INR&pa=premium@upi&tn=Order%20ORDER1" := by
    show "upi://pay?pn=PremiumShoes&am=" ++
        pyFloatRepr (pyRound2 (itemsSubtotal c6_order.items + c6_order.shipping)) ++
        "&cu=INR&pa=premium@upi&tn=Order%20" ++ "ORDER1" = _
    rw [hval, hfr]
    decide
  refine ⟨?_, ?_, rfl, rfl,
    "upi://pay?pn=PremiumShoes&", "&cu=INR&pa=premium@upi&tn=Order%20ORDER1", ?_⟩
  · show pyRound2 (itemsSubtotal c6_order.items) = 100
    norm_num [itemsSubtotal, c6_order, pyRound2, roundHalfEven]
  · show pyRound2 (itemsSubtotal c6_order.items + c6_order.shipping) = 105
    exact hval
  · rw [hlink]
    decide

end PremiumShoes

namespace PremiumShoes

/-- C4: GET /api/products/{id} with a syntactically invalid (malformed) id
returns the 404 not-found client error, for every store contents: the
ObjectId parse failure is folded into "not found" and never surfaces as a
server error. -/
theorem c4_malformed_id_not_found (store : List (String × Shoeproduct)) (product_id : String)
    (h : objectIdValid product_id = false) :
    get_product store product_id = .notFound 404 "Product not found" := by
  simp [get_product, h]

/-- C4 witness: the malformed id "not-a-valid-objectid" yields the 404
not-found result on the empty store. -/
theorem c4_malformed_id_not_found_witness :
    objectIdValid "not-a-valid-objectid" = false ∧
    get_product [] "not-a-valid-objectid" = .notFound 404 "Product not found" :=
  ⟨by decide, c4_malformed_id_not_found [] "not-a-valid-objectid" (by decide)⟩

/-- C7: a contact submission with no email field, or with an email value
containing no "@", is rejected with a 422 validation error and the store is
left untouched; a submission with all fields present and a valid email is
inserted and answered with {id, status: "received"}. -/
theorem c7_contact_validation (p : ContactPayload) (st : List Contactmessage) (newId : String) :
    (p.email = none → contact_endpoint p st newId = (st, .validationError 422)) ∧
    (∀ e, p.email = some e → e.toList.contains '@' = false →
      contact_endpoint p st newId = (st, .validationError 422)) ∧
    (∀ n e m, p.name = some n → p.email = some e → p.message = some m →
      emailValid e = true →
      contact_endpoint p st newId = (st ++ [⟨n, e, m⟩], .ok newId "received")) := by
  obtain ⟨pn, pe, pm⟩ := p
  refine ⟨?_, ?_, ?_⟩
  · rintro rfl
    cases pn <;> cases pm <;> rfl
  · rintro e rfl hno
    have hno' : '@' ∉ e.data := by simpa [String.toList] using hno
    cases pn <;> cases pm <;> simp [contact_endpoint, emailValid, hno']
  · rintro n e m rfl rfl rfl hv
    simp [contact_endpoint, hv]

/-- C7 witness: an email without "@" is rejected with 422 and nothing is
inserted; a valid submission is inserted and acknowledged as received. -/
theorem c7_contact_validation_witness :
    contact_endpoint ⟨some "Aarav", some "not-an-email", some "hello"⟩ [] "id1" =
      ([], .validationError 422) ∧
    contact_endpoint ⟨some "Aarav", some "a@b.com", some "hello"⟩ [] "id1" =
      ([⟨"Aarav", "a@b.com", "hello"⟩], .ok "id1" "received") :=
  ⟨(c7_contact_validation ⟨some "Aarav", some "not-an-email", some "hello"⟩ [] "id1").2.1
      "not-an-email" rfl (by decide),
   by
    have h := (c7_contact_validation ⟨some "Aarav", some "a@b.com", some "hello"⟩ [] "id1").2.2
        "Aarav" "a@b.com" "hello" rfl rfl rfl (by decide)
    simpa using h⟩

/-- C10: an order request must itself carry subtotal and total, each ≥ 0, or
it is rejected with a 422 validation error before the handler runs (nothing
is persisted); whenever validation accepts, the request did carry both fields
with non-negative values — even though the handler then discards and
recomputes them. -/
theorem c10_order_requires_totals (p : OrderPayload) (oid : String) :
    (p.subtotal = none → orders_endpoint p oid = (none, .validationError 422)) ∧
    (p.total = none → orders_endpoint p oid = (none, .validationError 422)) ∧
    (∀ s, p.subtotal = some s → s < 0 →
      orders_endpoint p oid = (none, .validationError 422)) ∧
    (∀ t, p.total = some t → t < 0 →
      orders_endpoint p oid = (none, .validationError 422)) ∧
    (∀ o, validate_order p = some o →
      (∃ s, p.subtotal = some s ∧ 0 ≤ s) ∧ (∃ t, p.total = some t ∧ 0 ≤ t)) := by
  obtain ⟨pi, ps, psh, pt, pcn, pce, pup, pui, pst⟩ := p
  refine ⟨?_, ?_, ?_, ?_, ?_⟩
  · rintro rfl
    cases pi <;> cases pt <;> rfl
  · rintro rfl
    cases pi <;> cases ps <;> rfl
  · rintro s rfl hneg
    cases pi <;> cases pt <;>
      simp [orders_endpoint, validate_order, hneg.not_le]
  · rintro t rfl hneg
    cases pi <;> cases ps <;>
      simp [orders_endpoint, validate_order, hneg.not_le]
  · intro o h
    cases pi with
    | none => exact absurd h (by simp [validate_order])
    | some its =>
      cases ps with
      | none => exact absurd h (by simp [validate_order])
      | some s =>
        cases pt with
        | none => exact absurd h (by simp [validate_order])
        | some t =>
          simp only [validate_order] at h
          split at h
          · rename_i hcond
            simp only [Bool.and_eq_true, decide_eq_true_eq] at hcond
            exact ⟨⟨s, rfl, hcond.1.1.1.1.1.2⟩, ⟨t, rfl, hcond.1.1.1.1.2⟩⟩
          · exact absurd h (by simp)

/-- C10 witness: a payload missing subtotal (and with total present) is
rejected with 422 and nothing reaches the handler. -/
theorem c10_order_requires_totals_witness :
    orders_endpoint ⟨some [], none, none, some 0, none, none, none, none, none⟩ "id1" =
      (none, .validationError 422) :=
  (c10_order_requires_totals ⟨some [], none, none, some 0, none, none, none, none, none⟩
    "id1").1 rfl

end PremiumShoes

namespace PremiumShoes

/-- A brand parameter that is present and non-empty is kept in the filter as
an exact-match predicate (src/main.py lines 79-80). -/
lemma buildQuery_brand_eq (b : String) (hb : b ≠ "") (size : Option ℤ) (mp Mp : Option ℚ)
    (color : Option String) (inew best : Option Bool) :
    (buildQuery (some b) size mp Mp color inew best).brand = some b := by
  simp [buildQuery, optStrTruthy, hb]

/-- A color parameter that is present and non-empty is kept in the filter as
a membership predicate (src/main.py lines 83-84). -/
lemma buildQuery_color_eq (c : String) (hc : c ≠ "") (brand : Option String) (size : Option ℤ)
    (mp Mp : Option ℚ) (inew best : Option Bool) :
    (buildQuery brand size mp Mp (some c) inew best).colorsIn = some c := by
  simp [buildQuery, optStrTruthy, hc]

/-- Every predicate present in a filter holds of every document the filter
matches. -/
lemma matchesQuery_sound {q : ProductQuery} {d : Shoeproduct}
    (h : matchesQuery q d = true) :
    (∀ b, q.brand = some b → d.brand = b) ∧
    (∀ s, q.sizesIn = some s → d.sizes.contains s = true) ∧
    (∀ c, q.colorsIn = some c → d.colors.contains c = true) ∧
    (∀ m, q.priceGte = some m → m ≤ d.price) ∧
    (∀ m, q.priceLte = some m → d.price ≤ m) ∧
    (∀ v, q.is_new = some v → d.is_new = v) ∧
    (∀ v, q.is_best_seller = some v → d.is_best_seller = v) := by
  obtain ⟨qb, qs, qc, qg, ql, qn, qbs⟩ := q
  simp only [matchesQuery, Bool.and_eq_true] at h
  obtain ⟨⟨⟨⟨⟨⟨h1, h2⟩, h3⟩, h4⟩, h5⟩, h6⟩, h7⟩ := h
  refine ⟨?_, ?_, ?_, ?_, ?_, ?_, ?_⟩
  · rintro b rfl; simpa using h1
  · rintro s rfl; simpa using h2
  · rintro c rfl; simpa using h3
  · rintro m rfl; simpa using h4
  · rintro m rfl; simpa using h5
  · rintro v rfl; simpa using h6
  · rintro v rfl; simpa using h7

/-- A catalogue document used as the concrete store content of the C2
counterexample and witness. -/
def nikeDoc : Shoeproduct :=
  { title := "Nike Elite 1", brand := "Nike", price := 119,
    colors := ["Black", "White", "Red"], sizes := [38, 39, 40, 41, 42, 43, 44],
    description := none, images := [], is_new := false, is_best_seller := false,
    rating := 5, reviews_count := 121, gender := "Unisex", material := none, popularity := 0 }

/-- C2 (counterexample): a caller who supplies brand as the empty string has
supplied a brand-equality predicate, yet the handler drops it (Python
truthiness at src/main.py line 79), so the query returns a document whose
brand is not the supplied value: the claim as stated fails. -/
theorem c2_supplied_filter_counterexample :
    list_products [nikeDoc] (some "") none none none none none none 60 = [nikeDoc] ∧
    nikeDoc.brand ≠ "" := by
  constructor
  · decide
  · decide

/-- C2 (amended): every document returned by GET /api/products satisfies every
filter predicate the caller supplied with a usable value — brand equality when
brand is non-empty, size membership, color membership when color is non-empty,
price lower and upper bounds, is_new and is_best_seller equality — and a
parameter that was not supplied (as well as a brand or color supplied as the
empty string) imposes no constraint: with no parameters the result is just
the store capped at the limit. -/
theorem c2_filters_sound :
    (∀ (docs : List Shoeproduct) (brand : Option String) (size : Option ℤ)
      (min_price max_price : Option ℚ) (color : Option String) (is_new best : Option Bool)
      (limit : ℕ) (d : Shoeproduct),
      d ∈ list_products docs brand size min_price max_price color is_new best limit →
      (∀ b, brand = some b → b ≠ "" → d.brand = b) ∧
      (∀ s, size = some s → d.sizes.contains s = true) ∧
      (∀ c, color = some c → c ≠ "" → d.colors.contains c = true) ∧
      (∀ m, min_price = some m → m ≤ d.price) ∧
      (∀ m, max_price = some m → d.price ≤ m) ∧
      (∀ v, is_new = some v → d.is_new = v) ∧
      (∀ v, best = some v → d.is_best_seller = v)) ∧
    (∀ (docs : List Shoeproduct) (limit : ℕ),
      list_products docs none none none none none none none limit = docs.take limit) := by
  constructor
  · intro docs brand size mp Mp color inew best limit d hd
    simp only [list_products, get_documents] at hd
    have hmem := List.mem_of_mem_take hd
    have hmatch : matchesQuery (buildQuery brand size mp Mp color inew best) d = true :=
      (List.mem_filter.mp hmem).2
    have hs := matchesQuery_sound hmatch
    refine ⟨?_, ?_, ?_, ?_, ?_, ?_, ?_⟩
    · rintro b rfl hb
      exact hs.1 b (buildQuery_brand_eq b hb size mp Mp color inew best)
    · rintro s rfl
      exact hs.2.1 s rfl
    · rintro c rfl hc
      exact hs.2.2.1 c (buildQuery_color_eq c hc brand size mp Mp inew best)
    · rintro m rfl
      exact hs.2.2.2.1 m rfl
    · rintro m rfl
      exact hs.2.2.2.2.1 m rfl
    · rintro v rfl
      exact hs.2.2.2.2.2.1 v rfl
    · rintro v rfl
      exact hs.2.2.2.2.2.2 v rfl
  · intro docs limit
    simp [list_products, get_documents, buildQuery, matchesQuery, optStrTruthy]

/-- C2 witness: with brand supplied as "Nike", the returned document indeed
has brand "Nike". -/
theorem c2_filters_sound_witness : nikeDoc.brand = "Nike" :=
  (c2_filters_sound.1 [nikeDoc] (some "Nike") none none none none none none 60 nikeDoc
    (by decide)).1 "Nike" rfl (by decide)

/-- C8 (counterexample): the brand parameter present as the empty string
contributes no predicate, and likewise for color — presence alone does not
decide whether the predicate is applied (src/main.py lines 79 and 83 test
truthiness, not presence). -/
theorem c8_presence_counterexample :
    (buildQuery (some "") none none none none none none).brand = none ∧
    (buildQuery none none none none (some "") none none).colorsIn = none := by
  constructor
  · decide
  · decide

/-- C8 (amended): a present non-empty brand parameter always contributes the
exact-match predicate on brand and a present non-empty color always
contributes the membership predicate on colors, whatever the other parameters
are; for brand and color an empty string is treated as absent, while for
size, minPrice, maxPrice, new and best presence alone decides, the supplied
value being copied into the filter unchanged. -/
theorem c8_nonempty_filter_predicates (b c : String) (size : Option ℤ) (mp Mp : Option ℚ)
    (inew best : Option Bool) :
    (b ≠ "" → (buildQuery (some b) size mp Mp (some c) inew best).brand = some b) ∧
    (c ≠ "" → (buildQuery (some b) size mp Mp (some c) inew best).colorsIn = some c) ∧
    (buildQuery (some b) size mp Mp (some c) inew best).sizesIn = size ∧
    (buildQuery (some b) size mp Mp (some c) inew best).priceGte = mp ∧
    (buildQuery (some b) size mp Mp (some c) inew best).priceLte = Mp ∧
    (buildQuery (some b) size mp Mp (some c) inew best).is_new = inew ∧
    (buildQuery (some b) size mp Mp (some c) inew best).is_best_seller = best :=
  ⟨fun hb => buildQuery_brand_eq b hb size mp Mp (some c) inew best,
   fun hc => buildQuery_color_eq c hc (some b) size mp Mp inew best,
   rfl, rfl, rfl, rfl, rfl⟩

/-- C8 witness: brand "Nike" and color "Red" both contribute their
predicates. -/
theorem c8_nonempty_filter_predicates_witness :
    (buildQuery (some "Nike") none none none (some "Red") none none).brand = some "Nike" ∧
    (buildQuery (some "Nike") none none none (some "Red") none none).colorsIn = some "Red" :=
  ⟨(c8_nonempty_filter_predicates "Nike" "Red" none none none none none).1 (by decide),
   (c8_nonempty_filter_predicates "Nike" "Red" none none none none none).2.1 (by decide)⟩

end PremiumShoes

namespace PremiumShoes

/-- The seed product batch has exactly 30 members (5 brands times 6). -/
lemma sample_products_length : sample_products.length = 30 := by
  simp [sample_products, brands, range1to6]

/-- The seed review batch has exactly 3 members. -/
lemma seed_reviews_length : seed_reviews.length = 3 := rfl

/-- The seed product batch is not empty. -/
lemma sample_products_ne_nil : sample_products ≠ [] := by
  intro h
  have hl := congrArg List.length h
  rw [sample_products_length] at hl
  simp at hl

/-- The seed review batch is not empty. -/
lemma seed_reviews_ne_nil : seed_reviews ≠ [] := by
  intro h
  have hl := congrArg List.length h
  rw [seed_reviews_length] at hl
  simp at hl

/-- C3: running the seed routine twice reports zero newly inserted products
and reviews on the second call and leaves both collection counts unchanged;
more generally each of the two collections receives its batch exactly when
its current count is zero and is skipped entirely otherwise. -/
theorem c3_seed_idempotent (st : DBState) :
    (seed_data (seed_data st).1).2.products = 0 ∧
    (seed_data (seed_data st).1).2.reviews = 0 ∧
    (seed_data (seed_data st).1).1.shoeproducts.length =
      (seed_data st).1.shoeproducts.length ∧
    (seed_data (seed_data st).1).1.sitereviews.length =
      (seed_data st).1.sitereviews.length ∧
    ((seed_data st).1.shoeproducts =
      if st.shoeproducts.length = 0 then st.shoeproducts ++ sample_products
      else st.shoeproducts) ∧
    ((seed_data st).1.sitereviews =
      if st.sitereviews.length = 0 then st.sitereviews ++ seed_reviews
      else st.sitereviews) ∧
    ((seed_data st).2.products = if st.shoeproducts.length = 0 then 30 else 0) ∧
    ((seed_data st).2.reviews = if st.sitereviews.length = 0 then 3 else 0) := by
  obtain ⟨ps, rs⟩ := st
  by_cases hp : ps = [] <;> by_cases hr : rs = [] <;>
    simp [seed_data, hp, hr, List.length_eq_zero, sample_products_length,
      seed_reviews_length, sample_products_ne_nil, seed_reviews_ne_nil]

/-- C5: seeding on empty collections inserts exactly 30 products and 3
reviews, the stored products are exactly the batch generated brand by brand
for n = 1..6, and each generated product has title "(brand) Elite (n)",
price 99 + 20n plus a 300 surcharge for Gucci only, the fixed 3-color list,
a 7-value sizes list, is_new exactly when n ≥ 5, is_best_seller exactly when
n is even, rating 4.5 and reviews_count 120 + n. -/
theorem c5_seed_contents :
    (seed_data ⟨[], []⟩).2.products = 30 ∧
    (seed_data ⟨[], []⟩).2.reviews = 3 ∧
    (seed_data ⟨[], []⟩).1.shoeproducts.length = 30 ∧
    (seed_data ⟨[], []⟩).1.sitereviews.length = 3 ∧
    (seed_data ⟨[], []⟩).1.shoeproducts =
      brands.flatMap (fun b => range1to6.map (fun n => mkSeedProduct b n)) ∧
    ∀ b ∈ brands, ∀ n ∈ range1to6,
      (mkSeedProduct b n).title = b ++ " Elite " ++ toString n ∧
      (mkSeedProduct b n).price = 99 + 20 * (n : ℚ) + (if b = "Gucci" then 300 else 0) ∧
      (mkSeedProduct b n).colors = ["Black", "White", "Red"] ∧
      (mkSeedProduct b n).sizes.length = 7 ∧
      ((mkSeedProduct b n).is_new = true ↔ 5 ≤ n) ∧
      ((mkSeedProduct b n).is_best_seller = true ↔ n % 2 = 0) ∧
      (mkSeedProduct b n).rating = 4.5 ∧
      (mkSeedProduct b n).reviews_count = 120 + n := by
  refine ⟨?_, ?_, ?_, ?_, ?_, ?_⟩
  · simp [seed_data, sample_products_length]
  · simp [seed_data, seed_reviews_length]
  · simp [seed_data, sample_products_length]
  · simp [seed_data, seed_reviews_length]
  · simp [seed_data, sample_products]
  · intro b hb n hn
    simp only [brands] at hb
    simp only [range1to6] at hn
    fin_cases hb <;> fin_cases hn <;>
      refine ⟨rfl, ?_, rfl, rfl, ?_, ?_, rfl, rfl⟩ <;>
      simp only [mkSeedProduct, String.reduceEq, ne_eq, not_false_eq_true, not_true,
        if_true, if_false, ite_true, ite_false] <;>
      norm_num [pyRound2, roundHalfEven]

/-- C5 witness: the fourth Gucci product carries the luxury surcharge, price
99 + 80 + 300. -/
theorem c5_seed_contents_witness :
    (mkSeedProduct "Gucci" 4).price =
      99 + 20 * ((4 : ℤ) : ℚ) + (if "Gucci" = "Gucci" then 300 else 0) :=
  (c5_seed_contents.2.2.2.2.2 "Gucci" (by decide) 4 (by decide)).2.1

end PremiumShoes
